import Mathlib

/-!
# Verification of the `nodejs-devops-template` project scaffolder

This file gives a shallow embedding, in Lean 4, of the interactive
project-initialization script of the `nodejs-devops-template` repository
(`tools/init-project.js`) and proves properties of the embedded code.

The script collects a `ProjectConfig` record from interactive prompts,
creates a directory skeleton, materializes a set of template-derived files
(package manifest, environment files, Docker assets, CI workflows, base
application files, repository metadata), and finally performs best-effort
dependency installation and git initialization.

Conventions of the embedding:
* JavaScript strings are Lean `String`s; content manipulated character by
  character is a `List Char` (`String.data`).
* The interactive input stream is a function `Nat → String` giving the
  line answered to the n-th question asked (questions are numbered in the
  order they are asked during the run being modelled).
* `x || y` on JavaScript strings (empty string is falsy) is modelled as
  `if x = "" then y else x`.
* `JSON.parse` of the package template yields a record; the mutation of
  its fields and the `delete` statements are modelled functionally.
* Literal braces, apostrophes and backticks inside embedded text are
  written with `\x7b`, `\x7d`, `\x27` and `\x60` escapes.
-/

/-- The `features` sub-record of `projectConfig` (`tools/init-project.js`,
default value: docker/cicd/database/monitoring true, redis false). -/
structure Features where
  docker : Bool
  cicd : Bool
  database : Bool
  redis : Bool
  monitoring : Bool
deriving DecidableEq, Repr

/-- The `projectConfig` record of `tools/init-project.js`. -/
structure ProjectConfig where
  name : String
  description : String
  author : String
  email : String
  dockerUsername : String
  githubUsername : String
  database : String
  features : Features
deriving DecidableEq, Repr

/-- The initial value of `projectConfig` before any prompt resolves. -/
def defaultProjectConfig : ProjectConfig :=
  { name := ""
    description := ""
    author := ""
    email := ""
    dockerUsername := ""
    githubUsername := ""
    database := "postgresql"
    features :=
      { docker := true
        cicd := true
        database := true
        redis := false
        monitoring := true } }

/-- JavaScript `x || y` for strings: the empty string is the only falsy
string value, every other string is truthy. -/
def strOrElse (x y : String) : String :=
  if x = "" then y else x

/-- JavaScript `String.prototype.toLowerCase`, modelled as per-character
lowercasing (ASCII letters are mapped to their lower-case form; this
agrees with JavaScript on the inputs compared against `"n"`/`"y"`). -/
def jsToLowerCase (s : String) : String :=
  ⟨s.data.map Char.toLower⟩

/-- `collectProjectInfo` from `tools/init-project.js`: consumes answers in
prompt order from the input stream and produces the populated
`projectConfig`.  The database-type question is asked only when the
database feature was answered affirmatively, which shifts the indices of
the two remaining questions. -/
def collectProjectInfo (inputs : Nat → String) : ProjectConfig :=
  let name := inputs 0
  let description :=
    strOrElse (inputs 1) (name ++ " - A Node.js API with DevOps practices")
  let author := inputs 2
  let email := inputs 3
  let githubUsername := inputs 4
  let dockerUsername := strOrElse (inputs 5) githubUsername
  let docker := jsToLowerCase (inputs 6) != "n"
  let cicd := jsToLowerCase (inputs 7) != "n"
  let database := jsToLowerCase (inputs 8) != "n"
  let databaseType :=
    if database then strOrElse (inputs 9) "postgresql"
    else defaultProjectConfig.database
  let redisIdx := if database then 10 else 9
  let redis := jsToLowerCase (inputs redisIdx) == "y"
  let monitoring := jsToLowerCase (inputs (redisIdx + 1)) != "n"
  { name := name
    description := description
    author := author
    email := email
    dockerUsername := dockerUsername
    githubUsername := githubUsername
    database := databaseType
    features :=
      { docker := docker
        cicd := cicd
        database := database
        redis := redis
        monitoring := monitoring } }

/-- The prompts printed by `collectProjectInfo`, in order; the
database-type prompt appears only when the database feature was answered
affirmatively. -/
def collectProjectInfoPrompts (inputs : Nat → String) : List String :=
  let database := jsToLowerCase (inputs 8) != "n"
  [ "Project name: ",
    "Project description (optional): ",
    "Author name: ",
    "Author email: ",
    "GitHub username: ",
    "Docker Hub username (optional): ",
    "Include Docker configuration? (y/n) [y]: ",
    "Include CI/CD workflows? (y/n) [y]: ",
    "Include database configuration? (y/n) [y]: " ] ++
  (if database then ["Database type (postgresql/mysql/mongodb) [postgresql]: "] else []) ++
  [ "Include Redis configuration? (y/n) [n]: ",
    "Include monitoring setup? (y/n) [y]: " ]

/-- `createProjectStructure` from `tools/init-project.js`: the list of
directories created, in creation order. -/
def createProjectStructure (features : Features) : List String :=
  let directories :=
    [ "src",
      "src/config",
      "src/controllers",
      "src/middleware",
      "src/models",
      "src/routes",
      "src/services",
      "src/utils",
      "src/validations",
      "tests",
      "tests/unit",
      "tests/integration",
      "logs",
      "scripts" ]
  let directories :=
    directories ++ (if features.docker then ["nginx"] else [])
  directories ++ (if features.cicd then [".github", ".github/workflows"] else [])

/-- C1: In the interactive collector, for every input line answering a
feature prompt, the docker, cicd, database and monitoring flags are set to
`false` exactly when the answer lowercases to `"n"` (any other answer,
including the empty line, yields `true`), while the redis flag is set to
`true` exactly when the answer lowercases to `"y"` (any other answer,
including the empty line, yields `false`). -/
theorem collect_feature_flag_parsing (inputs : Nat → String) :
    ((collectProjectInfo inputs).features.docker = false ↔
      jsToLowerCase (inputs 6) = "n") ∧
    ((collectProjectInfo inputs).features.cicd = false ↔
      jsToLowerCase (inputs 7) = "n") ∧
    ((collectProjectInfo inputs).features.database = false ↔
      jsToLowerCase (inputs 8) = "n") ∧
    ((collectProjectInfo inputs).features.redis = true ↔
      jsToLowerCase (inputs (if jsToLowerCase (inputs 8) = "n" then 9 else 10)) = "y") ∧
    ((collectProjectInfo inputs).features.monitoring = false ↔
      jsToLowerCase
        (inputs ((if jsToLowerCase (inputs 8) = "n" then 9 else 10) + 1)) = "n") := by
  by_cases h : jsToLowerCase (inputs 8) = "n" <;>
    simp [collectProjectInfo, h]

/-- C5: the directory list produced by the structure builder always
contains the fixed base set; `nginx` is present iff the docker feature is
on; `.github/workflows` is present iff the cicd feature is on. -/
theorem createProjectStructure_contents (f : Features) :
    (∀ d ∈ [ "src", "src/config", "src/controllers", "src/middleware",
             "src/models", "src/routes", "src/services", "src/utils",
             "src/validations", "tests", "tests/unit", "tests/integration",
             "logs", "scripts" ], d ∈ createProjectStructure f) ∧
    ("nginx" ∈ createProjectStructure f ↔ f.docker = true) ∧
    (".github/workflows" ∈ createProjectStructure f ↔ f.cicd = true) := by
  obtain ⟨d, c, db, r, m⟩ := f
  cases d <;> cases c <;> simp [createProjectStructure]

/-- C9: the database-type prompt is issued only when the database feature
is answered on; when the database feature is answered `"n"` (so the flag
is `false`), the `database` field of the resulting config keeps its
initial default `"postgresql"`, whatever the remaining answers are. -/
theorem database_prompt_gated (inputs : Nat → String)
    (h : jsToLowerCase (inputs 8) = "n") :
    (collectProjectInfo inputs).database = "postgresql" ∧
    "Database type (postgresql/mysql/mongodb) [postgresql]: " ∉
      collectProjectInfoPrompts inputs := by
  constructor
  · simp [collectProjectInfo, h, defaultProjectConfig]
  · simp [collectProjectInfoPrompts, h]

/-- Witness for C9 at a concrete input stream: every answer is `"n"`. -/
theorem database_prompt_gated_witness :
    (collectProjectInfo (fun _ => "n")).database = "postgresql" ∧
    "Database type (postgresql/mysql/mongodb) [postgresql]: " ∉
      collectProjectInfoPrompts (fun _ => "n") :=
  database_prompt_gated (fun _ => "n") (by decide)

/-- The parsed package manifest template (`JSON.parse` of
`templates/config/package.json`) restricted to the fields the script reads
or writes.  `dependencies`, `devDependencies` and `scripts` are JSON
objects, modelled as association lists with distinct keys. -/
structure Manifest where
  name : String
  description : String
  author : String
  repositoryUrl : String
  bugsUrl : String
  homepage : String
  dependencies : List (String × String)
  devDependencies : List (String × String)
  scripts : List (String × String)
deriving DecidableEq, Repr

/-- The `delete` statements of `processPackageJson` executed when
`features.database` is false: the two database dependencies are removed
from `dependencies`, `drizzle-kit` from `devDependencies`, and the three
`db:` scripts from `scripts`. -/
def stripDatabaseEntries (m : Manifest) : Manifest :=
  { m with
    dependencies := m.dependencies.filter
      (fun p => p.1 != "drizzle-orm" && p.1 != "@neondatabase/serverless")
    devDependencies := m.devDependencies.filter
      (fun p => p.1 != "drizzle-kit")
    scripts := m.scripts.filter
      (fun p => p.1 != "db:generate" && p.1 != "db:migrate" && p.1 != "db:studio") }

/-- `processPackageJson` from `tools/init-project.js`: fills the identity
fields and the three GitHub URLs from the config, then strips the
database entries when the database feature is off.  The result is the
object serialized to `package.json`. -/
def processPackageJson (cfg : ProjectConfig) (tmpl : Manifest) : Manifest :=
  let t :=
    { tmpl with
      name := cfg.name
      description := cfg.description
      author := cfg.author ++ " <" ++ cfg.email ++ ">"
      repositoryUrl :=
        "git+https://github.com/" ++ cfg.githubUsername ++ "/" ++ cfg.name ++ ".git"
      bugsUrl :=
        "https://github.com/" ++ cfg.githubUsername ++ "/" ++ cfg.name ++ "/issues"
      homepage :=
        "https://github.com/" ++ cfg.githubUsername ++ "/" ++ cfg.name ++ "#readme" }
  if cfg.features.database then t else stripDatabaseEntries t

/-- Modelled from the spec: `templates/config/package.json` is not under
`src/`; per the spec the template manifest carries the Drizzle ORM and
Neon database-driver dependencies, the `drizzle-kit` dev dependency and
the `db:generate`/`db:migrate`/`db:studio` scripts, next to ordinary
entries.  Version strings are representative. -/
def packageTemplate : Manifest :=
  { name := "your-app-name"
    description := "A Node.js API with DevOps practices"
    author := ""
    repositoryUrl := "git+https://github.com/your-username/your-app-name.git"
    bugsUrl := "https://github.com/your-username/your-app-name/issues"
    homepage := "https://github.com/your-username/your-app-name#readme"
    dependencies :=
      [ ("express", "^4.19.0"),
        ("drizzle-orm", "^0.33.0"),
        ("@neondatabase/serverless", "^0.9.0"),
        ("dotenv", "^16.4.0") ]
    devDependencies :=
      [ ("drizzle-kit", "^0.24.0"),
        ("eslint", "^9.0.0"),
        ("jest", "^29.7.0") ]
    scripts :=
      [ ("dev", "node --watch src/index.js"),
        ("db:generate", "drizzle-kit generate"),
        ("db:migrate", "drizzle-kit migrate"),
        ("db:studio", "drizzle-kit studio"),
        ("test", "jest") ] }

/-- Replace the database feature flag of a config. -/
def setDatabaseFeature (cfg : ProjectConfig) (b : Bool) : ProjectConfig :=
  { cfg with features := { cfg.features with database := b } }

/-- C2: with the database feature off, the generated manifest carries none
of the database dependency keys (in either dependency section) and none of
the `db:` scripts, and it equals the manifest generated with the database
feature on minus exactly those entries (for every template).  On the
repository's template all of those entries are present in the
feature-on manifest. -/
theorem processPackageJson_database_off (cfg : ProjectConfig) :
    (∀ tmpl : Manifest,
      processPackageJson (setDatabaseFeature cfg false) tmpl =
        stripDatabaseEntries (processPackageJson (setDatabaseFeature cfg true) tmpl)) ∧
    (let m := processPackageJson (setDatabaseFeature cfg false) packageTemplate
     m.dependencies.lookup "drizzle-orm" = none ∧
     m.dependencies.lookup "@neondatabase/serverless" = none ∧
     m.dependencies.lookup "drizzle-kit" = none ∧
     m.devDependencies.lookup "drizzle-orm" = none ∧
     m.devDependencies.lookup "@neondatabase/serverless" = none ∧
     m.devDependencies.lookup "drizzle-kit" = none ∧
     m.scripts.lookup "db:generate" = none ∧
     m.scripts.lookup "db:migrate" = none ∧
     m.scripts.lookup "db:studio" = none) ∧
    (let mOn := processPackageJson (setDatabaseFeature cfg true) packageTemplate
     (mOn.dependencies.lookup "drizzle-orm").isSome ∧
     (mOn.dependencies.lookup "@neondatabase/serverless").isSome ∧
     (mOn.devDependencies.lookup "drizzle-kit").isSome ∧
     (mOn.scripts.lookup "db:generate").isSome ∧
     (mOn.scripts.lookup "db:migrate").isSome ∧
     (mOn.scripts.lookup "db:studio").isSome) := by
  refine ⟨fun tmpl => ?_, ?_, ?_⟩
  · simp [processPackageJson, setDatabaseFeature]
  · simp [processPackageJson, setDatabaseFeature, stripDatabaseEntries, packageTemplate,
      List.filter, List.lookup]
  · simp [processPackageJson, setDatabaseFeature, packageTemplate, List.lookup]

/-- The config of the spec scenario: name `demo`, GitHub user `alice`. -/
def demoConfig : ProjectConfig :=
  { name := "demo"
    description := "demo - A Node.js API with DevOps practices"
    author := "Alice"
    email := "alice@example.com"
    dockerUsername := "alice"
    githubUsername := "alice"
    database := "postgresql"
    features :=
      { docker := true
        cicd := true
        database := true
        redis := false
        monitoring := true } }

/-- C3 (counterexample): for name `demo` and GitHub user `alice` the
generated repository URL is `git+https://github.com/alice/demo.git`, not
`https://github.com/alice/demo.git`, so the claimed URL shape is wrong. -/
theorem repository_url_counterexample :
    ¬ ((processPackageJson demoConfig packageTemplate).repositoryUrl =
        "https://github.com/alice/demo.git" ∧
       (processPackageJson demoConfig packageTemplate).homepage =
        "https://github.com/alice/demo#readme") := by
  intro h
  exact absurd h.1 (by decide)

/-- C3 (amended): for every config, the generated repository URL is
`git+https://github.com/{githubUsername}/{name}.git` (with the `git+`
scheme prefix used by the script) and the homepage is
`https://github.com/{githubUsername}/{name}#readme`. -/
theorem repository_url_shape (cfg : ProjectConfig) (tmpl : Manifest) :
    (processPackageJson cfg tmpl).repositoryUrl =
      "git+https://github.com/" ++ cfg.githubUsername ++ "/" ++ cfg.name ++ ".git" ∧
    (processPackageJson cfg tmpl).homepage =
      "https://github.com/" ++ cfg.githubUsername ++ "/" ++ cfg.name ++ "#readme" := by
  unfold processPackageJson
  by_cases h : cfg.features.database <;> simp [h, stripDatabaseEntries]

/-- One scanning pass of JavaScript `String.prototype.replace` with a
global literal pattern: at each position, if the pattern starts there the
replacement is emitted and the scan resumes after the matched text,
otherwise the character is kept.  The `fuel` argument (one unit per
scanned position) makes the recursion structural; `replaceAll` always
supplies enough fuel. -/
def replaceAllFuel (pat repl : List Char) : Nat → List Char → List Char
  | _, [] => []
  | 0, s => s
  | f + 1, c :: rest =>
    if pat.isPrefixOf (c :: rest) && !pat.isEmpty then
      repl ++ replaceAllFuel pat repl f (List.drop (pat.length - 1) rest)
    else
      c :: replaceAllFuel pat repl f rest

/-- JavaScript `s.replace(/pat/g, repl)` for a literal pattern `pat` and a
replacement string `repl` that contains no `$` escape: left-to-right,
non-overlapping global replacement. -/
def replaceAll (pat repl s : List Char) : List Char :=
  replaceAllFuel pat repl s.length s


lemma replaceAllFuel_nil (pat repl : List Char) (f : Nat) :
    replaceAllFuel pat repl f [] = [] := by
  cases f <;> rfl

lemma replaceAllFuel_congr (pat repl : List Char) :
    ∀ f₁ f₂ s, s.length ≤ f₁ → s.length ≤ f₂ →
      replaceAllFuel pat repl f₁ s = replaceAllFuel pat repl f₂ s := by
  intro f₁
  induction f₁ with
  | zero =>
    intro f₂ s h₁ _
    have hs : s = [] := List.length_eq_zero.mp (Nat.le_zero.mp h₁)
    subst hs
    rw [replaceAllFuel_nil, replaceAllFuel_nil]
  | succ f ih =>
    intro f₂ s h₁ h₂
    match s with
    | [] => rw [replaceAllFuel_nil, replaceAllFuel_nil]
    | c :: rest =>
      cases f₂ with
      | zero => exact absurd h₂ (by simp)
      | succ g =>
        show (if pat.isPrefixOf (c :: rest) && !pat.isEmpty then
            repl ++ replaceAllFuel pat repl f (List.drop (pat.length - 1) rest)
          else c :: replaceAllFuel pat repl f rest) =
          (if pat.isPrefixOf (c :: rest) && !pat.isEmpty then
            repl ++ replaceAllFuel pat repl g (List.drop (pat.length - 1) rest)
          else c :: replaceAllFuel pat repl g rest)
        have hr : rest.length ≤ f := by simpa using h₁
        have hr' : rest.length ≤ g := by simpa using h₂
        have hd : (List.drop (pat.length - 1) rest).length ≤ rest.length := by
          simp [List.length_drop]
        by_cases hp : (pat.isPrefixOf (c :: rest) && !pat.isEmpty) = true
        · rw [if_pos hp, if_pos hp, ih g _ (le_trans hd hr) (le_trans hd hr')]
        · rw [if_neg hp, if_neg hp, ih g rest hr hr']

lemma replaceAll_nil (pat repl : List Char) : replaceAll pat repl [] = [] := rfl

lemma replaceAll_cons (pat repl : List Char) (c : Char) (rest : List Char) :
    replaceAll pat repl (c :: rest) =
      if pat.isPrefixOf (c :: rest) && !pat.isEmpty then
        repl ++ replaceAll pat repl (List.drop (pat.length - 1) rest)
      else
        c :: replaceAll pat repl rest := by
  show (if pat.isPrefixOf (c :: rest) && !pat.isEmpty then
      repl ++ replaceAllFuel pat repl rest.length (List.drop (pat.length - 1) rest)
    else c :: replaceAllFuel pat repl rest.length rest) = _
  by_cases hp : (pat.isPrefixOf (c :: rest) && !pat.isEmpty) = true
  · rw [if_pos hp, if_pos hp]
    exact congrArg (repl ++ ·)
      (replaceAllFuel_congr pat repl rest.length _ _ (by simp [List.length_drop]) le_rfl)
  · rw [if_neg hp, if_neg hp]
    rfl

/-- If the pattern occurs nowhere in `s`, the replacement is the
identity. -/
lemma replaceAll_of_no_occurrence (pat repl : List Char) :
    ∀ s, ¬ pat <:+: s → replaceAll pat repl s = s := by
  intro s
  induction s with
  | nil => intro _; exact replaceAll_nil pat repl
  | cons c rest ih =>
    intro h
    rw [replaceAll_cons]
    have hp : ¬ (pat.isPrefixOf (c :: rest) && !pat.isEmpty) = true := by
      intro hb
      rw [Bool.and_eq_true] at hb
      exact h ((List.isPrefixOf_iff_prefix.mp hb.1).isInfix)
    rw [if_neg hp]
    exact congrArg (c :: ·) (ih fun hi => h (List.infix_cons hi))

/-- A match of the pattern at the head of the scanned text is taken. -/
lemma replaceAll_at_match (pat repl : List Char) (hpat : pat ≠ []) (rest : List Char) :
    replaceAll pat repl (pat ++ rest) = repl ++ replaceAll pat repl rest := by
  match pat, hpat with
  | p :: ps, _ =>
    show replaceAll (p :: ps) repl (p :: (ps ++ rest)) = _
    rw [replaceAll_cons]
    have hp : ((p :: ps).isPrefixOf (p :: (ps ++ rest)) && !(p :: ps).isEmpty) = true := by
      rw [Bool.and_eq_true]
      refine ⟨List.isPrefixOf_iff_prefix.mpr ?_, rfl⟩
      have : (p :: ps) <+: (p :: ps) ++ rest := List.prefix_append _ _
      rwa [List.cons_append] at this
    rw [if_pos hp]
    have hd : List.drop ((p :: ps).length - 1) (ps ++ rest) = rest := by
      simp [List.drop_left]
    rw [hd]

/-- No occurrence of `pat` spans the junction of `a ++ b`: every match
starting at a nonempty suffix of `a` is already contained in `a`. -/
def noSpan (pat a b : List Char) : Prop :=
  ∀ t : List Char, t <:+ a → t ≠ [] → pat <+: (t ++ b) → pat <+: t

/-- When no match spans the junction, the scan distributes over the
concatenation. -/
lemma replaceAll_append (pat repl : List Char) :
    ∀ a b, noSpan pat a b →
      replaceAll pat repl (a ++ b) =
        replaceAll pat repl a ++ replaceAll pat repl b := by
  suffices h : ∀ (n : Nat) (a b : List Char), a.length ≤ n → noSpan pat a b →
      replaceAll pat repl (a ++ b) =
        replaceAll pat repl a ++ replaceAll pat repl b by
    intro a b hs
    exact h a.length a b le_rfl hs
  intro n
  induction n with
  | zero =>
    intro a b ha _
    have hae : a = [] := List.length_eq_zero.mp (Nat.le_zero.mp ha)
    subst hae
    rw [List.nil_append, replaceAll_nil, List.nil_append]
  | succ n ih =>
    intro a b ha hs
    match a with
    | [] => rw [List.nil_append, replaceAll_nil, List.nil_append]
    | c :: rest =>
      rw [List.cons_append c rest b, replaceAll_cons, replaceAll_cons pat repl c rest]
      have hrest : noSpan pat rest b := fun t ht htn hp =>
        hs t (ht.trans (List.suffix_cons c rest)) htn hp
      have hlenr : rest.length ≤ n := by simpa using ha
      by_cases hp : (pat.isPrefixOf (c :: (rest ++ b)) && !pat.isEmpty) = true
      · have hpand := hp
        rw [Bool.and_eq_true] at hpand
        obtain ⟨hp1, hp2⟩ := hpand
        have hpre : pat <+: c :: (rest ++ b) := List.isPrefixOf_iff_prefix.mp hp1
        have hne : pat ≠ [] := by
          intro he
          rw [he] at hp2
          simp at hp2
        have hpre' : pat <+: c :: rest := by
          apply hs (c :: rest) (List.suffix_refl _) (by simp)
          rw [List.cons_append]
          exact hpre
        have hp' : (pat.isPrefixOf (c :: rest) && !pat.isEmpty) = true := by
          rw [Bool.and_eq_true]
          exact ⟨List.isPrefixOf_iff_prefix.mpr hpre', hp2⟩
        rw [if_pos hp, if_pos hp']
        have hlen : pat.length - 1 ≤ rest.length := by
          have hl := hpre'.length_le
          simp only [List.length_cons] at hl
          omega
        rw [List.drop_append_of_le_length hlen]
        have hsub : noSpan pat (List.drop (pat.length - 1) rest) b := fun t ht htn hq =>
          hs t ((ht.trans (List.drop_suffix _ _)).trans (List.suffix_cons c rest)) htn hq
        have hlen2 : (List.drop (pat.length - 1) rest).length ≤ n := by
          rw [List.length_drop]
          omega
        rw [ih _ b hlen2 hsub, List.append_assoc]
      · have hp' : ¬ (pat.isPrefixOf (c :: rest) && !pat.isEmpty) = true := by
          intro hq
          apply hp
          rw [Bool.and_eq_true] at hq
          obtain ⟨hq1, hq2⟩ := hq
          rw [Bool.and_eq_true]
          refine ⟨?_, hq2⟩
          rw [List.isPrefixOf_iff_prefix] at hq1 ⊢
          have h2 : pat <+: (c :: rest) ++ b := hq1.trans (List.prefix_append _ _)
          rwa [List.cons_append] at h2
        rw [if_neg hp, if_neg hp', ih rest b hlenr hrest]
        rfl

lemma prefix_of_prefix_append_of_length_le {pat t b : List Char}
    (h : pat <+: t ++ b) (hl : pat.length ≤ t.length) : pat <+: t := by
  have h1 : pat = (t ++ b).take pat.length := List.prefix_iff_eq_take.mp h
  rw [List.take_append_of_le_length hl] at h1
  exact h1 ▸ List.take_prefix _ _

/-- `noSpan` holds as soon as the pattern matches at no short nonempty
suffix of `a`; the check ranges over the finitely many suffixes, so it can
be discharged by `decide` on concrete data. -/
lemma noSpan_of_tails_check (pat a b : List Char)
    (h : ∀ t ∈ a.tails, t ≠ [] → t.length < pat.length → ¬ pat <+: (t ++ b)) :
    noSpan pat a b := by
  intro t ht htn hp
  by_cases hl : t.length < pat.length
  · exact absurd hp (h t ((List.mem_tails t a).mpr ht) htn hl)
  · exact prefix_of_prefix_append_of_length_le hp (Nat.le_of_not_lt hl)

/-- `noSpan` holds when the first character of the pattern does not occur
in `a` at all. -/
lemma noSpan_of_head_not_mem (pat a b : List Char) (hchar : Char)
    (hh : pat.head? = some hchar) (hmem : hchar ∉ a) : noSpan pat a b := by
  intro t ht htn hp
  exfalso
  obtain ⟨r, hr⟩ := hp
  match pat, hh with
  | pc :: pr, hh =>
    have hpc : pc = hchar := by simpa using hh
    match t, htn with
    | tc :: ts, _ =>
      have h2 : pc :: (pr ++ r) = tc :: (ts ++ b) := by simpa using hr
      injection h2 with h3 _
      apply hmem
      rw [← hpc, h3]
      exact ht.subset (List.mem_cons_self tc ts)

/-- `noSpan` holds when the first character of `b` does not occur in the
pattern: a match that started strictly inside `a` would have to read that
character. -/
lemma noSpan_of_b_head_not_mem (pat a b : List Char) (c : Char)
    (hb : b.head? = some c) (hc : c ∉ pat) : noSpan pat a b := by
  intro t _ _ hp
  obtain ⟨r, hr⟩ := hp
  rcases List.append_eq_append_iff.mp hr with ⟨w, hw1, _⟩ | ⟨w, hw1, hw2⟩
  · exact ⟨w, hw1.symm⟩
  · match w, hw2 with
    | [], _ =>
      refine ⟨[], ?_⟩
      rw [hw1]
      simp
    | wc :: ws, hw2 =>
      exfalso
      apply hc
      have hwc : wc = c := by
        rw [hw2] at hb
        have := hb.symm
        simpa using this.symm
      rw [hw1, ← hwc]
      simp

/-- Decomposition of an infix occurrence over a concatenation: the
occurrence lies in `a`, lies in `b`, or spans the junction, splitting the
pattern into a nonempty suffix-part of `a` and a nonempty prefix-part of
`b`. -/
lemma infix_append_cases {pat a b : List Char} (h : pat <:+: a ++ b) :
    pat <:+: a ∨ pat <:+: b ∨
      ∃ t s, pat = t ++ s ∧ t ≠ [] ∧ s ≠ [] ∧ t <:+ a ∧ s <+: b := by
  obtain ⟨u, v, huv⟩ := h
  rw [List.append_assoc] at huv
  rcases List.append_eq_append_iff.mp huv with ⟨w, hw1, hw2⟩ | ⟨w, hw1, hw2⟩
  · rcases List.append_eq_append_iff.mp hw2 with ⟨x, hx1, hx2⟩ | ⟨y, hy1, hy2⟩
    · left
      exact ⟨u, x, by rw [hw1, hx1, List.append_assoc]⟩
    · match y, hy1, hy2 with
      | [], hy1, hy2 =>
        left
        refine ⟨u, [], ?_⟩
        rw [List.append_nil] at hy1
        rw [List.append_nil, hw1, hy1]
      | yc :: ys, hy1, hy2 =>
        match w, hy1 with
        | [], hy1 =>
          right; left
          refine ⟨[], v, ?_⟩
          rw [List.nil_append] at hy1
          rw [List.nil_append, hy2, hy1]
        | wc :: ws, hy1 =>
          right; right
          exact ⟨wc :: ws, yc :: ys, hy1, by simp, by simp,
            ⟨u, hw1.symm⟩, ⟨v, hy2.symm⟩⟩
  · right; left
    exact ⟨w, v, by rw [hw2, List.append_assoc]⟩

/-- If `a` ends with a character that is not in the pattern, an infix
occurrence in `a ++ b` cannot span the junction. -/
lemma infix_append_elim_last {pat a b : List Char} (c : Char)
    (ha : a.getLast? = some c) (hc : c ∉ pat) (h : pat <:+: a ++ b) :
    pat <:+: a ∨ pat <:+: b := by
  rcases infix_append_cases h with h | h | ⟨t, s, hts, htn, _, hta, _⟩
  · exact Or.inl h
  · exact Or.inr h
  · exfalso
    apply hc
    obtain ⟨w, hw⟩ := hta
    rw [← hw, List.getLast?_append_of_ne_nil w htn] at ha
    rw [hts]
    exact List.mem_append_left s (List.mem_of_getLast?_eq_some ha)

/-- If `b` starts with a character that is not in the pattern, an infix
occurrence in `a ++ b` cannot span the junction. -/
lemma infix_append_elim_head {pat a b : List Char} (c : Char)
    (hb : b.head? = some c) (hc : c ∉ pat) (h : pat <:+: a ++ b) :
    pat <:+: a ∨ pat <:+: b := by
  rcases infix_append_cases h with h | h | ⟨t, s, hts, _, hsn, _, hsb⟩
  · exact Or.inl h
  · exact Or.inr h
  · exfalso
    apply hc
    obtain ⟨w, hw⟩ := hsb
    rw [← hw, List.head?_append_of_ne_nil s hsn] at hb
    match s, hsn, hb with
    | sc :: ss, _, hb =>
      have : sc = c := by simpa using hb
      rw [hts, ← this]
      simp

/-- The app-name placeholder token of the templates. -/
def appNameToken : List Char := "your-app-name".data

/-- The docker-username placeholder token of the templates. -/
def dockerUserToken : List Char := "your-docker-username".data

/-- Modelled from the spec: `templates/config/.env.example` is not under
`src/`; per the spec it is a template of placeholder environment
variables containing the app-name and docker-username placeholder
tokens. -/
def envTemplate : List Char :=
  "PORT=3000\nAPP_NAME=your-app-name\nDOCKER_IMAGE=your-docker-username/your-app-name\n".data

/-- `processEnvFiles` from `tools/init-project.js`: global replacement of
the app-name token by the project name, then of the docker-username token
by the Docker Hub username; the same content is written to `.env.example`
(first component) and `.env` (second component).  (JavaScript `replace`
treats `$` in the replacement specially; the model is the literal
replacement, exact for `$`-free values.) -/
def processEnvFiles (cfg : ProjectConfig) (tmpl : List Char) : List Char × List Char :=
  let content := replaceAll dockerUserToken cfg.dockerUsername.data
    (replaceAll appNameToken cfg.name.data tmpl)
  (content, content)

/-- The fixed text of `envTemplate` before the first token occurrence. -/
def envSegA : List Char := "PORT=3000\nAPP_NAME=".data

/-- The fixed text of `envTemplate` between the first app-name token and
the docker-username token. -/
def envSegB : List Char := "\nDOCKER_IMAGE=".data

/-- The fixed text of `envTemplate` between the first app-name token and
the second, containing the docker-username token. -/
def envSegMid : List Char := "\nDOCKER_IMAGE=your-docker-username/".data

lemma envTemplate_decomp :
    envTemplate =
      envSegA ++ (appNameToken ++ (envSegMid ++ (appNameToken ++ "\n".data))) := by
  decide

lemma envSegMid_decomp :
    envSegMid = envSegB ++ (dockerUserToken ++ "/".data) := by
  decide

/-- First pass over the environment template: both occurrences of the
app-name token are replaced by `n`, the fixed text is untouched. -/
lemma replace_appName_envTemplate (n : List Char) :
    replaceAll appNameToken n envTemplate =
      envSegA ++ (n ++ (envSegMid ++ (n ++ "\n".data))) := by
  rw [envTemplate_decomp]
  rw [replaceAll_append appNameToken n envSegA _
    (noSpan_of_head_not_mem appNameToken envSegA _ 'y' (by decide) (by decide))]
  rw [replaceAll_of_no_occurrence _ _ envSegA (by decide)]
  rw [replaceAll_at_match _ _ (by decide) _]
  rw [replaceAll_append _ _ envSegMid _
    (noSpan_of_tails_check _ _ _ (by decide))]
  rw [replaceAll_of_no_occurrence _ _ envSegMid (by decide)]
  rw [replaceAll_at_match _ _ (by decide) _]
  rw [replaceAll_of_no_occurrence _ _ "\n".data (by decide)]

/-- Second pass: the docker-username token occurrence in the fixed text is
replaced by `d`; the two inserted copies of `n` are scanned but untouched
as long as they do not themselves contain the token. -/
lemma replace_dockerUser_pass (n d : List Char)
    (hn : ¬ dockerUserToken <:+: n) :
    replaceAll dockerUserToken d
        (envSegA ++ (n ++ (envSegMid ++ (n ++ "\n".data)))) =
      envSegA ++ (n ++ (envSegB ++ (d ++ ("/".data ++ (n ++ "\n".data))))) := by
  rw [replaceAll_append dockerUserToken d envSegA _
    (noSpan_of_head_not_mem dockerUserToken envSegA _ 'y' (by decide) (by decide))]
  rw [replaceAll_of_no_occurrence _ _ envSegA (by decide)]
  rw [replaceAll_append dockerUserToken d n _
    (noSpan_of_b_head_not_mem dockerUserToken n _ '\n' (by rw [envSegMid_decomp]; rfl)
      (by decide))]
  rw [replaceAll_of_no_occurrence _ _ n hn]
  have hshape : envSegMid ++ (n ++ "\n".data) =
      envSegB ++ (dockerUserToken ++ ("/".data ++ (n ++ "\n".data))) := by
    rw [envSegMid_decomp]
    simp only [List.append_assoc]
  rw [hshape]
  rw [replaceAll_append dockerUserToken d envSegB _
    (noSpan_of_head_not_mem dockerUserToken envSegB _ 'y' (by decide) (by decide))]
  rw [replaceAll_of_no_occurrence _ _ envSegB (by decide)]
  rw [replaceAll_at_match _ _ (by decide) _]
  rw [replaceAll_append dockerUserToken d "/".data _
    (noSpan_of_head_not_mem dockerUserToken "/".data _ 'y' (by decide) (by decide))]
  rw [replaceAll_of_no_occurrence _ _ "/".data (by decide)]
  rw [replaceAll_append dockerUserToken d n "\n".data
    (noSpan_of_b_head_not_mem dockerUserToken n "\n".data '\n' rfl (by decide))]
  rw [replaceAll_of_no_occurrence _ _ n hn]
  rw [replaceAll_of_no_occurrence _ _ "\n".data (by decide)]

/-- The fully substituted environment content. -/
lemma envContent_eq (n d : List Char) (hn : ¬ dockerUserToken <:+: n) :
    replaceAll dockerUserToken d (replaceAll appNameToken n envTemplate) =
      envSegA ++ (n ++ (envSegB ++ (d ++ ("/".data ++ (n ++ "\n".data))))) := by
  rw [replace_appName_envTemplate, replace_dockerUser_pass n d hn]

/-- Neither placeholder token survives in the substituted content, as long
as the substituted values contain no token occurrence and the token has no
occurrence of the delimiter characters surrounding the insertion points. -/
lemma not_infix_env_result (pat n d : List Char)
    (h1 : '=' ∉ pat) (h2 : '\n' ∉ pat) (h3 : '/' ∉ pat)
    (hA : ¬ pat <:+: envSegA) (hB : ¬ pat <:+: envSegB)
    (hs : ¬ pat <:+: "/".data) (hnl : ¬ pat <:+: "\n".data)
    (hn : ¬ pat <:+: n) (hd : ¬ pat <:+: d) :
    ¬ pat <:+: envSegA ++ (n ++ (envSegB ++ (d ++ ("/".data ++ (n ++ "\n".data))))) := by
  intro h
  rcases infix_append_elim_last '=' (by decide) h1 h with h | h
  · exact hA h
  rcases infix_append_elim_head '\n' (by rfl) h2 h with h | h
  · exact hn h
  rcases infix_append_elim_last '=' (by decide) h1 h with h | h
  · exact hB h
  rcases infix_append_elim_head '/' (by rfl) h3 h with h | h
  · exact hd h
  rcases infix_append_elim_last '/' (by decide) h3 h with h | h
  · exact hs h
  rcases infix_append_elim_head '\n' (by rfl) h2 h with h | h
  · exact hn h
  · exact hnl h

/-- A config whose project name is itself the app-name placeholder
token. -/
def envBadConfig : ProjectConfig :=
  { defaultProjectConfig with name := "your-app-name", dockerUsername := "bob" }

/-- C6 (counterexample): when the project name is the string
`your-app-name`, the content written to `.env`/`.env.example` still
contains the app-name placeholder token, so "no placeholder token remains
in the written content" fails for this ProjectConfig. -/
theorem env_token_remains_counterexample :
    appNameToken <:+: (processEnvFiles envBadConfig envTemplate).2 := by
  have hc : (processEnvFiles envBadConfig envTemplate).2 =
      replaceAll dockerUserToken "bob".data
        (replaceAll appNameToken "your-app-name".data envTemplate) := rfl
  rw [hc, envContent_eq _ _ (by decide)]
  exact ⟨envSegA, envSegB ++ ("bob".data ++ ("/".data ++ ("your-app-name".data ++ "\n".data))), by decide⟩

/-- C6 (amended): both environment files receive the same content, in
which every template occurrence of the app-name token has been replaced by
the name and every occurrence of the docker-username token by the Docker
Hub username; provided the substituted values contain no placeholder token
(and no `$`, so that the literal-replacement model is exact), no
placeholder token remains in the written content. -/
theorem env_no_token_amended (cfg : ProjectConfig)
    (hn1 : ¬ appNameToken <:+: cfg.name.data)
    (hn2 : ¬ dockerUserToken <:+: cfg.name.data)
    (hd1 : ¬ appNameToken <:+: cfg.dockerUsername.data)
    (hd2 : ¬ dockerUserToken <:+: cfg.dockerUsername.data)
    (hds1 : '$' ∉ cfg.name.data) (hds2 : '$' ∉ cfg.dockerUsername.data) :
    (processEnvFiles cfg envTemplate).1 = (processEnvFiles cfg envTemplate).2 ∧
    ¬ appNameToken <:+: (processEnvFiles cfg envTemplate).2 ∧
    ¬ dockerUserToken <:+: (processEnvFiles cfg envTemplate).2 := by
  have hc : (processEnvFiles cfg envTemplate).2 =
      replaceAll dockerUserToken cfg.dockerUsername.data
        (replaceAll appNameToken cfg.name.data envTemplate) := rfl
  refine ⟨rfl, ?_, ?_⟩
  · rw [hc, envContent_eq _ _ hn2]
    exact not_infix_env_result appNameToken _ _ (by decide) (by decide) (by decide)
      (by decide) (by decide) (by decide) (by decide) hn1 hd1
  · rw [hc, envContent_eq _ _ hn2]
    exact not_infix_env_result dockerUserToken _ _ (by decide) (by decide) (by decide)
      (by decide) (by decide) (by decide) (by decide) hn2 hd2

/-- Witness for C6 (amended) at the scenario config (`demo`/`alice`). -/
theorem env_no_token_amended_witness :
    (processEnvFiles demoConfig envTemplate).1 = (processEnvFiles demoConfig envTemplate).2 ∧
    ¬ appNameToken <:+: (processEnvFiles demoConfig envTemplate).2 ∧
    ¬ dockerUserToken <:+: (processEnvFiles demoConfig envTemplate).2 :=
  env_no_token_amended demoConfig (by decide) (by decide) (by decide) (by decide)
    (by decide) (by decide)

/-- Items of a JavaScript regular expression as they occur in the
patterns of `tools/init-project.js`: literal characters (including the
literal backslash written `\\` in the regex source), the `.` any-character
class, and the `$` end-of-input assertion (the scripts use no `m` flag, so
`$` holds only at the end of the input). -/
inductive RItem where
  | lit (c : Char)
  | dot
  | anchorEnd
deriving DecidableEq, Repr

/-- Matching a sequence of regex items at the head of the text, returning
the remaining text on success. -/
def rmatch : List RItem → List Char → Option (List Char)
  | [], s => some s
  | RItem.lit _ :: _, [] => none
  | RItem.lit c :: ps, d :: rest => if d = c then rmatch ps rest else none
  | RItem.dot :: _, [] => none
  | RItem.dot :: ps, _ :: rest => rmatch ps rest
  | RItem.anchorEnd :: ps, [] => rmatch ps []
  | RItem.anchorEnd :: _, _ :: _ => none

/-- Global regex replacement, scanning left to right; on a match the
replacement is emitted and the scan resumes after the consumed text (or
one character further for an empty match, as JavaScript does).  Fuel makes
the recursion structural. -/
def regexReplaceAllFuel (pat : List RItem) (repl : List Char) : Nat → List Char → List Char
  | _, [] => []
  | 0, s => s
  | f + 1, c :: rest =>
    match rmatch pat (c :: rest) with
    | some rem =>
      if rem.length < rest.length + 1 then repl ++ regexReplaceAllFuel pat repl f rem
      else repl ++ c :: regexReplaceAllFuel pat repl f rest
    | none => c :: regexReplaceAllFuel pat repl f rest

/-- JavaScript `s.replace(/pat/g, repl)` for the modelled pattern items. -/
def regexReplaceAll (pat : List RItem) (repl s : List Char) : List Char :=
  regexReplaceAllFuel pat repl s.length s

/-- The pattern of the regex literal `/\\$\\{PROJECT_NAME:-app\\}/g` in
`processDockerFiles`: each `\\` is an escaped literal backslash, the
unescaped `$` is the end-of-input assertion, and the braces and the
remaining characters are literals. -/
def brokenComposePattern : List RItem :=
  [RItem.lit '\\', RItem.anchorEnd, RItem.lit '\\', RItem.lit '\x7b'] ++
  "PROJECT_NAME:-app".data.map RItem.lit ++
  [RItem.lit '\\', RItem.lit '\x7d']

/-- The pattern of `/\\$\\{PROJECT_NAME:-app\\}/g` can match nothing: it
requires a literal backslash, then the end of the input, then further
characters. -/
lemma rmatch_broken_none : ∀ s, rmatch brokenComposePattern s = none := by
  intro s
  match s with
  | [] => rfl
  | c :: rest =>
    show rmatch (RItem.lit '\\' :: _) (c :: rest) = none
    rw [rmatch]
    by_cases hc : c = '\\'
    · rw [if_pos hc]
      cases rest <;> rfl
    · rw [if_neg hc]

lemma regexReplaceAllFuel_of_no_match (pat : List RItem) (repl : List Char)
    (h : ∀ s, rmatch pat s = none) : ∀ f s, regexReplaceAllFuel pat repl f s = s := by
  intro f
  induction f with
  | zero => intro s; cases s <;> rfl
  | succ f ih =>
    intro s
    cases s with
    | nil => rfl
    | cons c rest =>
      show (match rmatch pat (c :: rest) with
        | some rem =>
          if rem.length < rest.length + 1 then repl ++ regexReplaceAllFuel pat repl f rem
          else repl ++ c :: regexReplaceAllFuel pat repl f rest
        | none => c :: regexReplaceAllFuel pat repl f rest) = c :: rest
      rw [h (c :: rest)]
      exact congrArg (c :: ·) (ih rest)

/-- The docker-compose processing of `processDockerFiles`: the content of
the compose template after the `devCompose.replace` call whose pattern is
the regex literal modelled by `brokenComposePattern` and whose replacement
is the template literal building `$\x7bPROJECT_NAME:-\x7d` around the
project name (the same line is run for the dev and the prod compose
template). -/
def processDockerCompose (name : String) (tmpl : List Char) : List Char :=
  regexReplaceAll brokenComposePattern
    (("$\x7bPROJECT_NAME:-" ++ name ++ "\x7d").data) tmpl

/-- C4: the compose substitution is a no-op — the over-escaped regex never
matches — so for the scenario template the written
`docker-compose.dev.yml` still contains the default token
`$\x7bPROJECT_NAME:-app\x7d` and does not contain `demo`, contradicting
the claimed substitution. -/
theorem docker_compose_substitution_noop :
    (∀ (name : String) (tmpl : List Char), processDockerCompose name tmpl = tmpl) ∧
    (let tmpl := "container_name: $\x7bPROJECT_NAME:-app\x7d\n".data
     processDockerCompose "demo" tmpl = tmpl ∧
     "$\x7bPROJECT_NAME:-app\x7d".data <:+: processDockerCompose "demo" tmpl ∧
     ¬ "demo".data <:+: processDockerCompose "demo" tmpl) := by
  have hid : ∀ (name : String) (tmpl : List Char), processDockerCompose name tmpl = tmpl :=
    fun name tmpl =>
      regexReplaceAllFuel_of_no_match _ _ rmatch_broken_none tmpl.length tmpl
  refine ⟨hid, ?_, ?_, ?_⟩
  · exact hid _ _
  · rw [hid]
    decide
  · rw [hid]
    decide

/-- The `.dockerignore` content written by `processDockerFiles` (a fixed
string literal, independent of the config). -/
def dockerignoreContent : String :=
  "node_modules\nnpm-debug.log\n.env\n.env.local\n.env.development\n.env.production\nlogs/\ncoverage/\n.nyc_output\n.git\n.gitignore\nREADME.md\nDockerfile\n.dockerignore\ndocker-compose*.yml"

/-- The workflow content written by `processCICDFiles` for each workflow
template: first every `your-app-name` is replaced by the project name by a
(working) literal global regex, then the over-escaped image-reference
regex — modelled by `brokenCICDPattern` — is applied. -/
def brokenCICDPattern : List RItem :=
  [RItem.lit '\\', RItem.anchorEnd, RItem.lit '\\', RItem.lit '\x7b',
   RItem.lit '\\', RItem.lit '\x7b', RItem.lit ' '] ++
  "secrets".data.map RItem.lit ++
  [RItem.lit '\\', RItem.dot] ++
  "DOCKER_USERNAME".data.map RItem.lit ++
  [RItem.lit ' ', RItem.lit '\\', RItem.lit '\x7d', RItem.lit '\\', RItem.lit '\x7d',
   RItem.lit '\\', RItem.lit '/'] ++
  "your-app-name".data.map RItem.lit

/-- `processCICDFiles` content transformation for one workflow file. -/
def processCICDContent (name : String) (tmpl : List Char) : List Char :=
  regexReplaceAll brokenCICDPattern
    (("$\x7b\x7b secrets.DOCKER_USERNAME \x7d\x7d/" ++ name).data)
    (replaceAll appNameToken name.data tmpl)

/-- The `src/index.js` content written by `createBaseCodeFiles` (a fixed
string, independent of the config; the `$\x7bPORT\x7d` occurrences are
escaped in the source template literal and so are literal text). -/
def indexJsContent : String :=
  "import \x27dotenv/config\x27;\nimport server from \x27./server.js\x27;\n\nconst PORT = process.env.PORT || 3000;\n\nserver.listen(PORT, () => \x7b\n  console.log(\x60🚀 Server running on port $\x7bPORT\x7d\x60);\n  console.log(\x60📊 Environment: $\x7bprocess.env.NODE_ENV || \x27development\x27\x7d\x60);\n  console.log(\x60🔗 Local URL: http://localhost:$\x7bPORT\x7d\x60);\n\x7d);\n"

/-- The `src/server.js` content written by `createBaseCodeFiles`; the only
interpolated value is the project name in the root-endpoint welcome
message. -/
def serverJsContent (name : String) : String :=
  "import express from \x27express\x27;\nimport cors from \x27cors\x27;\nimport helmet from \x27helmet\x27;\nimport morgan from \x27morgan\x27;\n\nconst app = express();\n\n// 安全中间件\napp.use(helmet());\n\n// CORS配置\napp.use(cors(\x7b\n  origin: process.env.CORS_ORIGIN?.split(\x27,\x27) || \x27http://localhost:3000\x27,\n  credentials: true,\n\x7d));\n\n// 日志中间件\napp.use(morgan(\x27combined\x27));\n\n// 请求解析\napp.use(express.json());\napp.use(express.urlencoded(\x7b extended: true \x7d));\n\n// 健康检查端点\napp.get(\x27/health\x27, (req, res) => \x7b\n  res.status(200).json(\x7b\n    status: \x27OK\x27,\n    timestamp: new Date().toISOString(),\n    uptime: process.uptime(),\n    environment: process.env.NODE_ENV || \x27development\x27,\n  \x7d);\n\x7d);\n\n// 基础路由\napp.get(\x27/\x27, (req, res) => \x7b\n  res.json(\x7b\n    message: \x27Welcome to "
  ++ name ++
  " API\x27,\n    version: \x271.0.0\x27,\n    environment: process.env.NODE_ENV || \x27development\x27,\n  \x7d);\n\x7d);\n\n// 错误处理中间件\napp.use((err, req, res, next) => \x7b\n  console.error(err.stack);\n  res.status(500).json(\x7b\n    error: \x27Something went wrong!\x27,\n    message: process.env.NODE_ENV === \x27development\x27 ? err.message : \x27Internal Server Error\x27,\n  \x7d);\n\x7d);\n\n// 404处理\napp.use(\x27*\x27, (req, res) => \x7b\n  res.status(404).json(\x7b\n    error: \x27Route not found\x27,\n    path: req.originalUrl,\n  \x7d);\n\x7d);\n\nexport default app;\n"

/-- The `.gitignore` content written by `createConfigFiles` (fixed). -/
def gitignoreContent : String :=
  "# Dependencies\nnode_modules/\nnpm-debug.log*\nyarn-debug.log*\nyarn-error.log*\n\n# Environment variables\n.env\n.env.local\n.env.development\n.env.production\n\n# Logs\nlogs\n*.log\n\n# Runtime data\npids\n*.pid\n*.seed\n*.pid.lock\n\n# Coverage directory used by tools like istanbul\ncoverage/\n.nyc_output\n\n# Dependency directories\nnode_modules/\njspm_packages/\n\n# Optional npm cache directory\n.npm\n\n# Optional eslint cache\n.eslintcache\n\n# Build outputs\ndist/\nbuild/\n\n# IDE files\n.vscode/\n.idea/\n*.swp\n*.swo\n*~\n\n# OS generated files\n.DS_Store\n.DS_Store?\n._*\n.Spotlight-V100\n.Trashes\nehthumbs.db\nThumbs.db\n\n# Docker\n.docker/\n\n# Database\n*.db\n*.sqlite\n"

/-- JavaScript `s.charAt(0).toUpperCase() + s.slice(1)` (the empty string
maps to itself). -/
def jsCapitalize (s : String) : String :=
  match s.data with
  | [] => ""
  | c :: rest => ⟨c.toUpper :: rest⟩

/-- The `README.md` content assembled by `createConfigFiles`, with the
conditional Docker, database and CI/CD fragments. -/
def readmeContent (cfg : ProjectConfig) : String :=
  "# " ++ cfg.name ++ "\n\n" ++ cfg.description ++
  "\n\n## 🚀 Quick Start\n\n### Prerequisites\n\n- Node.js 18+\n- npm 9+\n" ++
  (if cfg.features.docker then "- Docker & Docker Compose (optional)" else "") ++
  "\n\n### Installation\n\n\x60\x60\x60bash\n# Clone the repository\ngit clone https://github.com/" ++
  cfg.githubUsername ++ "/" ++ cfg.name ++ ".git\ncd " ++ cfg.name ++
  "\n\n# Install dependencies\nnpm install\n\n# Copy environment variables\ncp .env.example .env\n# Update .env with your configuration\n\n# Start development server\nnpm run dev\n\x60\x60\x60\n\n" ++
  (if cfg.features.docker then
    "### Docker Development\n\n\x60\x60\x60bash\n# Start with Docker\nnpm run dev:docker\n\n# Stop containers\nnpm run docker:down\n\x60\x60\x60\n"
   else "") ++
  "\n\n## 📚 Available Scripts\n\n- \x60npm run dev\x60 - Start development server with hot reload\n- \x60npm run start\x60 - Start production server\n- \x60npm run lint\x60 - Run ESLint\n- \x60npm run lint:fix\x60 - Fix ESLint issues\n- \x60npm run format\x60 - Format code with Prettier\n- \x60npm run test\x60 - Run tests\n" ++
  (if cfg.features.docker then
    "- \x60npm run dev:docker\x60 - Start development with Docker\n- \x60npm run prod:docker\x60 - Start production with Docker"
   else "") ++
  "\n\n## 🏗️ Project Structure\n\n\x60\x60\x60\n" ++ cfg.name ++
  "/\n├── src/\n│   ├── config/         # Configuration files\n│   ├── controllers/    # Request handlers\n│   ├── middleware/     # Custom middleware\n│   ├── models/         # Data models\n│   ├── routes/         # Route definitions\n│   ├── services/       # Business logic\n│   ├── utils/          # Utility functions\n│   └── validations/    # Input validation schemas\n├── tests/              # Test files\n├── logs/               # Application logs\n└── scripts/            # Build and deployment scripts\n\x60\x60\x60\n\n## 📦 Tech Stack\n\n- **Runtime**: Node.js 18+\n- **Framework**: Express.js\n- **Validation**: Zod\n- **Testing**: Jest\n- **Code Quality**: ESLint + Prettier\n" ++
  (if cfg.features.database then "- **Database**: " ++ jsCapitalize cfg.database else "") ++ "\n" ++
  (if cfg.features.docker then "- **Containerization**: Docker" else "") ++ "\n" ++
  (if cfg.features.cicd then "- **CI/CD**: GitHub Actions" else "") ++
  "\n\n## 🤝 Contributing\n\n1. Fork the repository\n2. Create your feature branch (\x60git checkout -b feature/amazing-feature\x60)\n3. Commit your changes (\x60git commit -m \x27Add some amazing feature\x27\x60)\n4. Push to the branch (\x60git push origin feature/amazing-feature\x60)\n5. Open a Pull Request\n\n## 📄 License\n\nThis project is licensed under the MIT License - see the [LICENSE](LICENSE) file for details.\n\n## 👨‍💻 Author\n\n**" ++
  cfg.author ++ "**\n- Email: " ++ cfg.email ++ "\n- GitHub: [@" ++ cfg.githubUsername ++
  "](https://github.com/" ++ cfg.githubUsername ++ ")\n"

/-- The content of a written file: templated text, or the package manifest
object (serialized with `JSON.stringify(·, null, 2)` — equal objects
serialize equally, so the object is the faithful content abstraction). -/
inductive FileContent where
  | text (s : List Char)
  | json (m : Manifest)
deriving DecidableEq, Repr

/-- The static template files read by the script (they live under
`templates/`, outside the embedded tool). -/
structure Templates where
  packageJson : Manifest
  envExample : List Char
  dockerfile : List Char
  composeDev : List Char
  composeProd : List Char
  lintWorkflow : List Char
  testsWorkflow : List Char
  dockerWorkflow : List Char

/-- `processTemplateFiles` from `tools/init-project.js`: the ordered list
of `(path, content)` pairs written by `processPackageJson`,
`processEnvFiles`, `processDockerFiles` (docker feature only),
`processCICDFiles` (cicd feature only), `createBaseCodeFiles` and
`createConfigFiles`. -/
def processTemplateFiles (t : Templates) (cfg : ProjectConfig) :
    List (String × FileContent) :=
  [("package.json", FileContent.json (processPackageJson cfg t.packageJson))] ++
  [(".env.example", FileContent.text (processEnvFiles cfg t.envExample).1),
   (".env", FileContent.text (processEnvFiles cfg t.envExample).2)] ++
  (if cfg.features.docker then
    [("Dockerfile", FileContent.text t.dockerfile),
     ("docker-compose.dev.yml",
       FileContent.text (processDockerCompose cfg.name t.composeDev)),
     ("docker-compose.prod.yml",
       FileContent.text (processDockerCompose cfg.name t.composeProd)),
     (".dockerignore", FileContent.text dockerignoreContent.data)]
   else []) ++
  (if cfg.features.cicd then
    [(".github/workflows/lint-and-format.yml",
       FileContent.text (processCICDContent cfg.name t.lintWorkflow)),
     (".github/workflows/tests.yml",
       FileContent.text (processCICDContent cfg.name t.testsWorkflow)),
     (".github/workflows/docker-build-and-push.yml",
       FileContent.text (processCICDContent cfg.name t.dockerWorkflow))]
   else []) ++
  [("src/index.js", FileContent.text indexJsContent.data),
   ("src/server.js", FileContent.text (serverJsContent cfg.name).data)] ++
  [(".gitignore", FileContent.text gitignoreContent.data),
   ("README.md", FileContent.text (readmeContent cfg).data)]

/-- All artifacts of a run: the directories created and the files
written. -/
def generateArtifacts (t : Templates) (cfg : ProjectConfig) :
    List String × List (String × FileContent) :=
  (createProjectStructure cfg.features, processTemplateFiles t cfg)

/-- Replace the redis and monitoring feature flags of a config. -/
def setRedisMonitoring (cfg : ProjectConfig) (r m : Bool) : ProjectConfig :=
  { cfg with features := { cfg.features with redis := r, monitoring := m } }

/-- C10: the redis and monitoring flags influence no generated artifact:
for every template set and config, changing only those two flags leaves
the directory list and every written file path and content unchanged. -/
theorem redis_monitoring_no_effect (t : Templates) (cfg : ProjectConfig) (r m : Bool) :
    generateArtifacts t (setRedisMonitoring cfg r m) = generateArtifacts t cfg := by
  obtain ⟨name, desc, author, email, du, gu, db, ⟨fd, fc, fdb, fr, fm⟩⟩ := cfg
  rfl

/-- Outcomes of the effectful operations of one run: `none` means the
operation succeeds, `some msg` that it throws with that message.
Directory creation and file writing are sequential, so their failures
carry the index of the first operation that throws. -/
structure StepOutcomes where
  collectErr : Option String
  mkdirErr : Option (Nat × String)
  writeErr : Option (Nat × String)
  npmErr : Option String
  gitErr : Option String

/-- The observable result of a run of `main`: the process exit code, the
console lines relevant to the error-handling contract (install/git phase
lines, completion lines, top-level error line), and the directories and
files present on disk when the process exits. -/
structure RunResult where
  exitCode : Nat
  logs : List String
  dirs : List String
  files : List (String × FileContent)

/-- Console lines of `installDependencies`: the failure of `npm install`
is caught, logged with a manual-recovery hint, and not re-thrown. -/
def installDependenciesLogs (npmErr : Option String) : List String :=
  ["📦 Installing dependencies..."] ++
  match npmErr with
  | none => ["  ✅ Dependencies installed successfully"]
  | some e =>
    ["  ❌ Failed to install dependencies: " ++ e,
     "  ℹ️  You can install them manually later with: npm install"]

/-- Console lines of `initializeGit`: failures of the git commands are
caught, logged with a manual-recovery hint, and not re-thrown. -/
def initializeGitLogs (gitErr : Option String) : List String :=
  ["🔄 Initializing Git repository..."] ++
  match gitErr with
  | none => ["  ✅ Git repository initialized"]
  | some e =>
    ["  ❌ Failed to initialize Git: " ++ e,
     "  ℹ️  You can initialize it manually later with: git init"]

/-- Console lines of `showCompletion`. -/
def showCompletionLogs (cfg : ProjectConfig) : List String :=
  ["🎉 Project initialization completed!",
   "==================================="] ++
  ["Next steps:",
   "1. Update .env file with your configuration",
   "2. Review and customize the generated files"] ++
  (if cfg.features.cicd then
    ["3. Set up GitHub repository secrets:",
     "   - DOCKER_USERNAME",
     "   - DOCKER_PASSWORD"] ++
    (if cfg.features.database then ["   - DATABASE_URL", "   - TEST_DATABASE_URL"] else []) ++
    ["   - JWT_SECRET"]
   else []) ++
  ["Start development:"] ++
  (if cfg.features.docker then ["  npm run dev:docker  # With Docker"] else []) ++
  ["  npm run dev         # Local development",
   "Happy coding! 🚀"]

/-- `main` from `tools/init-project.js`: the sequential run
`collectProjectInfo → createProjectStructure → processTemplateFiles →
installDependencies → initializeGit → showCompletion` inside one
`try/catch`.  An exception in the first three steps reaches the catch
handler, which prints the message and calls `process.exit(1)`; nothing is
deleted, so the directories and files already created remain.  The install
and git steps catch their own failures, so the run always reaches
`showCompletion` and exits 0 once the first three steps are done. -/
def runMain (t : Templates) (inputs : Nat → String) (o : StepOutcomes) : RunResult :=
  match o.collectErr with
  | some e =>
    { exitCode := 1
      logs := ["❌ Error during initialization: " ++ e]
      dirs := []
      files := [] }
  | none =>
    let cfg := collectProjectInfo inputs
    let dirsPlanned := createProjectStructure cfg.features
    match o.mkdirErr with
    | some (i, e) =>
      { exitCode := 1
        logs := ["❌ Error during initialization: " ++ e]
        dirs := dirsPlanned.take i
        files := [] }
    | none =>
      let filesPlanned := processTemplateFiles t cfg
      match o.writeErr with
      | some (i, e) =>
        { exitCode := 1
          logs := ["❌ Error during initialization: " ++ e]
          dirs := dirsPlanned
          files := filesPlanned.take i }
      | none =>
        { exitCode := 0
          logs := installDependenciesLogs o.npmErr ++ initializeGitLogs o.gitErr ++
            showCompletionLogs cfg
          dirs := dirsPlanned
          files := filesPlanned }

/-- C7: when the dependency-install step or the git-init step throws, the
exception is caught and a manual-recovery hint is logged, the run
continues, the completion summary is printed, all planned files are
written, and the process exits 0. -/
theorem install_git_best_effort (t : Templates) (inputs : Nat → String) (o : StepOutcomes)
    (h1 : o.collectErr = none) (h2 : o.mkdirErr = none) (h3 : o.writeErr = none)
    (h4 : o.npmErr.isSome ∨ o.gitErr.isSome) :
    (runMain t inputs o).exitCode = 0 ∧
    "🎉 Project initialization completed!" ∈ (runMain t inputs o).logs ∧
    (∀ e, o.npmErr = some e →
      ("  ❌ Failed to install dependencies: " ++ e) ∈ (runMain t inputs o).logs ∧
      "  ℹ️  You can install them manually later with: npm install" ∈ (runMain t inputs o).logs) ∧
    (∀ e, o.gitErr = some e →
      ("  ❌ Failed to initialize Git: " ++ e) ∈ (runMain t inputs o).logs ∧
      "  ℹ️  You can initialize it manually later with: git init" ∈ (runMain t inputs o).logs) ∧
    (runMain t inputs o).files = processTemplateFiles t (collectProjectInfo inputs) := by
  clear h4
  refine ⟨?_, ?_, ?_, ?_, ?_⟩
  · simp [runMain, h1, h2, h3]
  · simp [runMain, h1, h2, h3, installDependenciesLogs, initializeGitLogs,
      showCompletionLogs]
  · intro e he
    constructor <;>
      simp [runMain, h1, h2, h3, installDependenciesLogs, he]
  · intro e he
    constructor <;>
      simp [runMain, h1, h2, h3, initializeGitLogs, he]
  · simp [runMain, h1, h2, h3]

/-- Outcomes of a run in which only `npm install` fails. -/
def npmFailOutcomes : StepOutcomes :=
  { collectErr := none
    mkdirErr := none
    writeErr := none
    npmErr := some "Command failed: npm install"
    gitErr := none }

/-- A concrete template set for witnesses. -/
def sampleTemplates : Templates :=
  { packageJson := packageTemplate
    envExample := envTemplate
    dockerfile := "FROM node:18-alpine\n".data
    composeDev := "container_name: $\x7bPROJECT_NAME:-app\x7d\n".data
    composeProd := "container_name: $\x7bPROJECT_NAME:-app\x7d\n".data
    lintWorkflow := "name: lint your-app-name\n".data
    testsWorkflow := "name: test your-app-name\n".data
    dockerWorkflow := "image: $\x7b\x7b secrets.DOCKER_USERNAME \x7d\x7d/your-app-name\n".data }

/-- Witness for C7: a run whose installer command exits non-zero still
reaches the completion summary, writes all files and exits 0. -/
theorem install_git_best_effort_witness :
    (runMain sampleTemplates (fun _ => "") npmFailOutcomes).exitCode = 0 ∧
    "🎉 Project initialization completed!" ∈
      (runMain sampleTemplates (fun _ => "") npmFailOutcomes).logs ∧
    (∀ e, npmFailOutcomes.npmErr = some e →
      ("  ❌ Failed to install dependencies: " ++ e) ∈
        (runMain sampleTemplates (fun _ => "") npmFailOutcomes).logs ∧
      "  ℹ️  You can install them manually later with: npm install" ∈
        (runMain sampleTemplates (fun _ => "") npmFailOutcomes).logs) ∧
    (∀ e, npmFailOutcomes.gitErr = some e →
      ("  ❌ Failed to initialize Git: " ++ e) ∈
        (runMain sampleTemplates (fun _ => "") npmFailOutcomes).logs ∧
      "  ℹ️  You can initialize it manually later with: git init" ∈
        (runMain sampleTemplates (fun _ => "") npmFailOutcomes).logs) ∧
    (runMain sampleTemplates (fun _ => "") npmFailOutcomes).files =
      processTemplateFiles sampleTemplates (collectProjectInfo (fun _ => "")) :=
  install_git_best_effort sampleTemplates (fun _ => "") npmFailOutcomes
    rfl rfl rfl (Or.inl rfl)

/-- C8: an exception in input collection, directory creation or template
materialization reaches the top-level handler, which prints the message
and exits with status 1; nothing already created is removed — on a
directory-creation failure the directories created so far remain, and on a
write failure all directories and the files written so far remain. -/
theorem fatal_steps_abort (t : Templates) (inputs : Nat → String) (o : StepOutcomes) :
    (∀ e, o.collectErr = some e →
      (runMain t inputs o).exitCode = 1 ∧
      ("❌ Error during initialization: " ++ e) ∈ (runMain t inputs o).logs) ∧
    (∀ i e, o.collectErr = none → o.mkdirErr = some (i, e) →
      (runMain t inputs o).exitCode = 1 ∧
      ("❌ Error during initialization: " ++ e) ∈ (runMain t inputs o).logs ∧
      (runMain t inputs o).dirs =
        (createProjectStructure (collectProjectInfo inputs).features).take i) ∧
    (∀ i e, o.collectErr = none → o.mkdirErr = none → o.writeErr = some (i, e) →
      (runMain t inputs o).exitCode = 1 ∧
      ("❌ Error during initialization: " ++ e) ∈ (runMain t inputs o).logs ∧
      (runMain t inputs o).dirs =
        createProjectStructure (collectProjectInfo inputs).features ∧
      (runMain t inputs o).files =
        (processTemplateFiles t (collectProjectInfo inputs)).take i) := by
  refine ⟨?_, ?_, ?_⟩
  · intro e he
    refine ⟨?_, ?_⟩ <;> simp [runMain, he]
  · intro i e hc hm
    refine ⟨?_, ?_, ?_⟩ <;> simp [runMain, hc, hm]
  · intro i e hc hm hw
    refine ⟨?_, ?_, ?_, ?_⟩ <;> simp [runMain, hc, hm, hw]

/-- Outcomes of a run whose template-materialization phase throws on the
third write. -/
def writeFailOutcomes : StepOutcomes :=
  { collectErr := none
    mkdirErr := none
    writeErr := some (3, "EACCES: permission denied")
    npmErr := none
    gitErr := none }

/-- Witness for C8: a run whose materialization throws exits 1, logs the
error, and keeps every directory and the files already written. -/
theorem fatal_steps_abort_witness :
    (runMain sampleTemplates (fun _ => "") writeFailOutcomes).exitCode = 1 ∧
    ("❌ Error during initialization: " ++ "EACCES: permission denied") ∈
      (runMain sampleTemplates (fun _ => "") writeFailOutcomes).logs ∧
    (runMain sampleTemplates (fun _ => "") writeFailOutcomes).dirs =
      createProjectStructure (collectProjectInfo (fun _ => "")).features ∧
    (runMain sampleTemplates (fun _ => "") writeFailOutcomes).files =
      (processTemplateFiles sampleTemplates (collectProjectInfo (fun _ => ""))).take 3 :=
  (fatal_steps_abort sampleTemplates (fun _ => "") writeFailOutcomes).2.2
    3 "EACCES: permission denied" rfl rfl rfl
